import Mathlib

/-!
Shallow embedding of the pipeline orchestrator
(src/03_etl_pipelines/pipeline_orchestrator.py).

Python `datetime.now()` is modelled by an event clock: a natural number
threaded through the computation and incremented at every `now()` call.
Work functions (`Task.function`) are modelled as a map from the attempt
number to the outcome of calling the Python callable on that attempt
(`Except.ok` for a returned value, `Except.error` for a raised exception);
result values are modelled as naturals.  Python dicts keyed by strings are
modelled as insertion-ordered association lists with Python's assignment
semantics (replace in place if the key exists, else append).  Object
references held in `upstream_tasks` / `downstream_tasks` are modelled as
task ids resolved through the owning DAG's task map, which preserves the
aliasing of the Python objects.
-/

namespace PipelineOrchestrator

abbrev Val := Nat

inductive Status
  | pending
  | running
  | success
  | failed
  | skipped
  deriving DecidableEq, Repr

/-- A value stored in `context['results']`: either the value returned by
`Task.run` (possibly Python `None`, hence `Option`) or the `{'error': str(e)}`
dict recorded when the task raised. -/
inductive RunResult
  | val (v : Option Val)
  | err (e : String)
  deriving DecidableEq, Repr

/-- Mirror of the Python `Task` object, including its mutable run state. -/
structure Task where
  task_id : String
  function : Nat → Except String Val
  retries : Nat
  retry_delay : Nat
  upstream_tasks : List String
  downstream_tasks : List String
  status : Status
  start_time : Option Nat
  end_time : Option Nat
  result : Option Val
  error : Option String

/-- `Task(task_id, function, retries=3, retry_delay=5)` constructor with the
mutable state fields at their initial values. -/
def mkTask (id : String) (f : Nat → Except String Val) (retries : Nat) : Task :=
  { task_id := id
    function := f
    retries := retries
    retry_delay := 5
    upstream_tasks := []
    downstream_tasks := []
    status := Status.pending
    start_time := none
    end_time := none
    result := none
    error := none }

/-- The `for attempt in range(self.retries)` loop of `Task.run`, iterating over
the remaining attempt numbers.  Returns the Python return value (`.ok none`
models the trailing `return None`, `.error e` models a re-raised exception),
the updated task object, and the clock. -/
def Task.runGo (t : Task) (clock : Nat) :
    List Nat → Except String (Option Val) × Task × Nat
  | [] => (Except.ok none, t, clock)
  | attempt :: rest =>
    match t.function attempt with
    | Except.ok v =>
        (Except.ok (some v),
         { t with result := some v, status := Status.success,
                  end_time := some clock },
         clock + 1)
    | Except.error e =>
        if attempt < t.retries - 1 then
          Task.runGo { t with error := some e } clock rest
        else
          (Except.error e,
           { t with error := some e, status := Status.failed,
                    end_time := some clock },
           clock + 1)

/-- `Task.run(context)`: set status to `running`, stamp `start_time`, then run
the retry loop over `range(self.retries)`. -/
def Task.run (t : Task) (clock : Nat) : Except String (Option Val) × Task × Nat :=
  Task.runGo
    { t with status := Status.running, start_time := some clock }
    (clock + 1)
    (List.range t.retries)

/-- The value ending up in the `'duration'` field of an execution record.
Line 208 of the source stores the run's total seconds in the variable
`duration`, but the per-task summary loop then reassigns `duration` to a
display string (empty, or the formatted per-task duration), so the field can
hold either. `text none` models the empty string, `text (some d)` models the
formatted per-task duration string. -/
inductive DurVal
  | secs (n : Nat)
  | text (o : Option Nat)
  deriving DecidableEq, Repr

/-- One entry of `execution_history`. -/
structure Record where
  dag_id : String
  execution_date : Nat
  duration : DurVal
  task_status : List (String × Status)
  deriving DecidableEq, Repr

/-- Mirror of the Python `DAG` object. `tasks` is the insertion-ordered
id-to-task dict. -/
structure DAG where
  dag_id : String
  schedule : Option String
  start_date : Nat
  tasks : List (String × Task)
  execution_history : List Record

/-- `DAG(dag_id, schedule=None, start_date=None)` constructor. -/
def mkDAG (id : String) : DAG :=
  { dag_id := id
    schedule := none
    start_date := 0
    tasks := []
    execution_history := [] }

/-- Python dict assignment `m[k] = v`: replace the value in place if the key
is present (keeping its position), otherwise append at the end. -/
def pyDictSet {α : Type} (m : List (String × α)) (k : String) (v : α) :
    List (String × α) :=
  if m.any (fun p => p.1 = k) then
    m.map (fun p => if p.1 = k then (k, v) else p)
  else
    m ++ [(k, v)]

/-- `DAG.add_task(task)`: `self.tasks[task.task_id] = task`. -/
def DAG.add_task (d : DAG) (t : Task) : DAG :=
  { d with tasks := pyDictSet d.tasks t.task_id t }

/-- `DAG.get_task(task_id)`: `self.tasks.get(task_id)`. -/
def DAG.get_task (d : DAG) (id : String) : Option Task :=
  (d.tasks.find? (fun p => p.1 = id)).map (fun p => p.2)

/-- Apply `f` to the task stored under key `k` (models mutating the shared
Python object in place). -/
def updateTask (m : List (String × Task)) (k : String) (f : Task → Task) :
    List (String × Task) :=
  m.map (fun p => if p.1 = k then (p.1, f p.2) else p)

/-- `DAG.set_dependencies(upstream_id, downstream_id)`: look up both tasks;
raise `ValueError` if either is missing; otherwise
`downstream.add_upstream(upstream)`, which appends to both adjacency lists. -/
def DAG.set_dependencies (d : DAG) (upstream_id downstream_id : String) :
    Except String DAG :=
  match d.get_task upstream_id, d.get_task downstream_id with
  | some _, some _ =>
      Except.ok { d with tasks :=
        (updateTask
          (updateTask d.tasks downstream_id
            (fun t => { t with
              upstream_tasks := t.upstream_tasks ++ [upstream_id] }))
          upstream_id
          (fun t => { t with
            downstream_tasks := t.downstream_tasks ++ [downstream_id] })) }
  | _, _ => Except.error "Task not found"

/-- `DAG.get_root_tasks()`: tasks with no upstream dependencies, in dict
insertion order. -/
def DAG.get_root_tasks (d : DAG) : List Task :=
  (d.tasks.map (fun p => p.2)).filter (fun t => t.upstream_tasks.isEmpty)

/-- `DAG.get_leaf_tasks()`: tasks with no downstream dependencies. -/
def DAG.get_leaf_tasks (d : DAG) : List Task :=
  (d.tasks.map (fun p => p.2)).filter (fun t => t.downstream_tasks.isEmpty)

/-- Downstream ids of the task stored under `id` (empty when absent; in the
Python code the reference always exists). -/
def DAG.downstreamOf (d : DAG) (id : String) : List String :=
  match d.get_task id with
  | some t => t.downstream_tasks
  | none => []

/-- Upstream ids of the task stored under `id`. -/
def DAG.upstreamOf (d : DAG) (id : String) : List String :=
  match d.get_task id with
  | some t => t.upstream_tasks
  | none => []

/-- The recursive `has_cycle` helper of `DAG.validate_dag`, with the
`visited` and `recursion_stack` sets threaded explicitly.  `Sum.inl id`
enters one task; `Sum.inr children` runs the `for downstream in
task.downstream_tasks` loop with its early `return True`.  `fuel` bounds the
call depth; it only decreases on recursion, and every evaluation in this file
supplies more fuel than the graph can consume, so the `0` clause (arbitrarily
reporting a cycle) is never reached. -/
def hasCycleGo (d : DAG) :
    Nat → String ⊕ List String → List String → List String →
    Bool × List String × List String
  | 0, _, visited, stack => (true, visited, stack)
  | fuel + 1, Sum.inl id, visited, stack =>
    if id ∈ stack then (true, visited, stack)
    else if id ∈ visited then (false, visited, stack)
    else
      match hasCycleGo d fuel (Sum.inr (d.downstreamOf id))
              (id :: visited) (id :: stack) with
      | (true, visited2, stack2) => (true, visited2, stack2)
      | (false, visited2, stack2) => (false, visited2, stack2.erase id)
  | _ + 1, Sum.inr [], visited, stack => (false, visited, stack)
  | fuel + 1, Sum.inr (c :: cs), visited, stack =>
    match hasCycleGo d fuel (Sum.inl c) visited stack with
    | (true, visited2, stack2) => (true, visited2, stack2)
    | (false, visited2, stack2) => hasCycleGo d fuel (Sum.inr cs) visited2 stack2

/-- Fuel that strictly dominates the nesting depth of `hasCycleGo` (and of
`visitGo`): every task contributes one frame plus one frame per adjacency
entry along any chain of nested calls. -/
def DAG.fuelBound (d : DAG) : Nat :=
  (d.tasks.map (fun p => p.2.downstream_tasks.length)).sum +
  (d.tasks.map (fun p => p.2.upstream_tasks.length)).sum +
  2 * d.tasks.length + 2

/-- The `for task in self.get_root_tasks(): if has_cycle(task): return False`
loop of `validate_dag`, threading the shared `visited`/`recursion_stack`. -/
def validateRootsGo (d : DAG) :
    List Task → List String → List String → Bool
  | [], _, _ => true
  | r :: rs, visited, stack =>
    match hasCycleGo d d.fuelBound (Sum.inl r.task_id) visited stack with
    | (true, _, _) => false
    | (false, visited2, stack2) => validateRootsGo d rs visited2 stack2

/-- `DAG.validate_dag()`: DFS cycle detection started from each root task. -/
def DAG.validate_dag (d : DAG) : Bool :=
  validateRootsGo d d.get_root_tasks [] []

/-- The recursive `visit` helper of `DAG.run` that builds the execution
order.  State is `(visited, execution_order)`; `Sum.inl id` visits one task
(recursing into its upstream tasks first, then appending the task),
`Sum.inr ups` runs the `for upstream in task.upstream_tasks` loop. -/
def visitGo (d : DAG) :
    Nat → String ⊕ List String → List String × List String →
    List String × List String
  | 0, _, acc => acc
  | fuel + 1, Sum.inl id, (visited, order) =>
    if id ∈ visited then (visited, order)
    else
      match visitGo d fuel (Sum.inr (d.upstreamOf id)) (visited, order) with
      | (visited2, order2) => (id :: visited2, order2 ++ [id])
  | _ + 1, Sum.inr [], acc => acc
  | fuel + 1, Sum.inr (u :: us), acc =>
    visitGo d fuel (Sum.inr us) (visitGo d fuel (Sum.inl u) acc)

/-- The execution order computed at the start of `DAG.run`:
`for task in self.get_root_tasks(): visit(task)`. -/
def DAG.execution_order (d : DAG) : List String :=
  (d.get_root_tasks.foldl
    (fun acc t => visitGo d d.fuelBound (Sum.inl t.task_id) acc)
    ([], [])).2

/-- Read the current status of the task stored under `id` (the Python loop
reads `t.status` through a shared object reference; in the model the task map
is the single source of truth).  The `none` fallback is unreachable for ids
produced by the orchestrator. -/
def statusOf (m : List (String × Task)) (id : String) : Status :=
  match (m.find? (fun p => p.1 = id)).map (fun p => p.2) with
  | some t => t.status
  | none => Status.pending

/-- The `for task in execution_order` loop of `DAG.run` (source lines
190-205): gate each task on its upstream statuses, run it, record its result
or error, `break` on a task failure, or mark it `skipped`.  Note the Python
condition `if upstream_status and all(...)` — an empty `upstream_status`
list is falsy, so a root task matches neither branch. -/
def runLoop :
    List (String × Task) → Nat → List (String × RunResult) → List String →
    List (String × Task) × Nat × List (String × RunResult)
  | tasks, clock, results, [] => (tasks, clock, results)
  | tasks, clock, results, id :: rest =>
    match (tasks.find? (fun p => p.1 = id)).map (fun p => p.2) with
    | none => runLoop tasks clock results rest
    | some t =>
      let upstream_status := t.upstream_tasks.map (fun uid => statusOf tasks uid)
      if !upstream_status.isEmpty &&
          upstream_status.all (fun s => decide (s = Status.success)) then
        match t.run clock with
        | (Except.ok o, t2, clock2) =>
            runLoop (pyDictSet tasks id t2) clock2
              (pyDictSet results id (RunResult.val o)) rest
        | (Except.error e, t2, clock2) =>
            (pyDictSet tasks id t2, clock2,
             pyDictSet results id (RunResult.err e))
      else if !upstream_status.isEmpty then
        runLoop (pyDictSet tasks id { t with status := Status.skipped })
          clock results rest
      else
        runLoop tasks clock results rest

/-- The per-task `duration` display string computed in the summary loop of
`DAG.run`: the formatted duration when both timestamps are set, else the
empty string. -/
def taskDur (t : Task) : DurVal :=
  match t.start_time, t.end_time with
  | some s, some e => DurVal.text (some (e - s))
  | _, _ => DurVal.text none

/-- The run-scoped context returned by `DAG.run` (the keys it populates in
the Python dict). -/
structure RunCtx where
  dag_id : String
  execution_date : Nat
  results : List (String × RunResult)
  deriving DecidableEq, Repr

/-- `DAG.run(context=None)` (source lines 157-241): validate, build the
context, compute the execution order, run the gating loop, then build the
execution record.  The record's `duration` field reproduces the source's
variable shadowing: line 208 stores the run's total duration in `duration`,
but the summary loop on lines 216-230 reassigns `duration` to the last
task's display string, and line 235 stores whatever is left. -/
def DAG.run (d : DAG) (clock : Nat) : Except String (RunCtx × DAG × Nat) :=
  if !d.validate_dag then
    Except.error "DAG validation failed - cannot execute"
  else
    let execution_date := clock
    let clock1 := clock + 1
    let start_time := clock1
    let clock2 := clock1 + 1
    let order := d.execution_order
    match runLoop d.tasks clock2 [] order with
    | (tasks2, clock3, results) =>
      let end_time := clock3
      let clock4 := clock3 + 1
      let total_duration := end_time - start_time
      let duration := order.foldl
        (fun _ id =>
          match (tasks2.find? (fun p => p.1 = id)).map (fun p => p.2) with
          | some t => taskDur t
          | none => DurVal.text none)
        (DurVal.secs total_duration)
      let rec1 : Record :=
        { dag_id := d.dag_id
          execution_date := execution_date
          duration := duration
          task_status := order.map (fun id => (id, statusOf tasks2 id)) }
      Except.ok
        ({ dag_id := d.dag_id, execution_date := execution_date,
           results := results },
         { d with tasks := tasks2,
                  execution_history := d.execution_history ++ [rec1] },
         clock4)

/-- A work function that succeeds on every attempt with value `v`. -/
def alwaysOk (v : Val) : Nat → Except String Val :=
  fun _ => Except.ok v

/-- A work function that raises on every attempt. -/
def alwaysFail : Nat → Except String Val :=
  fun _ => Except.error "boom"

/-- A DAG with one task `t` whose work always succeeds (retries=3). -/
def singleDag : DAG :=
  (mkDAG "single").add_task (mkTask "t" (alwaysOk 99) 3)

/-- The linear ETL chain `extract → transform → validate → load` of
`DataPipelineFactory.create_etl_dag`, with every work function succeeding. -/
def chainDag : Except String DAG :=
  let d := (mkDAG "daily_sales_etl").add_task (mkTask "extract" (alwaysOk 1) 3)
  let d := d.add_task (mkTask "transform" (alwaysOk 2) 3)
  let d := d.add_task (mkTask "validate" (alwaysOk 3) 3)
  let d := d.add_task (mkTask "load" (alwaysOk 4) 3)
  do
    let d1 ← d.set_dependencies "extract" "transform"
    let d2 ← d1.set_dependencies "transform" "validate"
    d2.set_dependencies "validate" "load"

/-- Tasks `a`, `b`, `c` with the pure cycle `a → b, b → c, c → a`. -/
def cycleDag : Except String DAG :=
  let d := (mkDAG "cyclic").add_task (mkTask "a" (alwaysOk 1) 3)
  let d := d.add_task (mkTask "b" (alwaysOk 2) 3)
  let d := d.add_task (mkTask "c" (alwaysOk 3) 3)
  do
    let d1 ← d.set_dependencies "a" "b"
    let d2 ← d1.set_dependencies "b" "c"
    d2.set_dependencies "c" "a"

/-- Chain `a → b` where `a` succeeds and `b` always fails with retries=1
(the retry-exhaustion setting). -/
def failChainDag : Except String DAG :=
  let d := (mkDAG "failchain").add_task (mkTask "a" (alwaysOk 1) 3)
  let d := d.add_task (mkTask "b" alwaysFail 1)
  d.set_dependencies "a" "b"

/-- The branch-halt scenario: root `start` fans out to `good`, `bad`,
`review`, all joining into `finish`; `bad` always fails with retries=1. -/
def branchDag : Except String DAG :=
  let d := (mkDAG "branch").add_task (mkTask "start" (alwaysOk 0) 3)
  let d := d.add_task (mkTask "good" (alwaysOk 1) 3)
  let d := d.add_task (mkTask "bad" alwaysFail 1)
  let d := d.add_task (mkTask "review" (alwaysOk 2) 3)
  let d := d.add_task (mkTask "finish" (alwaysOk 3) 3)
  do
    let d1 ← d.set_dependencies "start" "good"
    let d2 ← d1.set_dependencies "start" "bad"
    let d3 ← d2.set_dependencies "start" "review"
    let d4 ← d3.set_dependencies "good" "finish"
    let d5 ← d4.set_dependencies "bad" "finish"
    d5.set_dependencies "review" "finish"

/-- A root task `U` that has already exhausted its retries through a direct
`Task.run` call, so its status is `failed` before the run starts. -/
def uFailedTask : Task :=
  (Task.run (mkTask "U" alwaysFail 1) 0).2.1

/-- DAG for the skip-propagation scenario: `T`'s only upstream is `U`, and
`U` enters the run already `failed`. -/
def skipDag : Except String DAG :=
  let d := (mkDAG "skip").add_task uFailedTask
  let d := d.add_task (mkTask "T" (alwaysOk 1) 3)
  d.set_dependencies "U" "T"

/-- Two tasks sharing the id `"a"`, distinguishable by their retry counts. -/
def dupTaskFirst : Task := mkTask "a" (alwaysOk 1) 3

/-- Second task with the same id `"a"` but retries=7. -/
def dupTaskSecond : Task := mkTask "a" (alwaysOk 1) 7

/-- C1: the execution loop of `DAG.run` never executes a root task.  On a
DAG whose only task `t` is a root with an always-succeeding work function,
`DAG.run` stores nothing in `context['results']` and leaves `t` at status
`pending`: the dispatch condition `if upstream_status and all(...)` is falsy
for an empty upstream list, so the claim that root tasks are executed and
their results stored fails. -/
theorem c1_root_tasks_never_executed :
    (singleDag.run 0).map
      (fun r => (r.1.results, (r.2.1.get_task "t").map Task.status)) =
    Except.ok ([], some Status.pending) := by
  rfl

/-- C2: the execution order computed by `DAG.run` for the linear chain
`extract → transform → validate → load` is `["extract"]`, not the claimed
`[extract, transform, validate, load]`: the order-building `visit` recurses
only into *upstream* tasks starting from the roots, so the order never
contains a non-root task. -/
theorem c2_execution_order_only_roots :
    chainDag.map DAG.execution_order = Except.ok ["extract"] := by
  rfl

/-- C3: `validate_dag` does not detect the pure cycle `a → b, b → c, c → a`.
Its DFS starts only from root tasks and every task on this cycle has an
upstream task, so no DFS is started and validation passes (returns `true`),
contradicting the claim that it returns failure and reports the cycle. -/
theorem c3_pure_cycle_passes_validation :
    cycleDag.map DAG.validate_dag = Except.ok true := by
  rfl

/-- C4: on the retry-exhaustion scenario (chain `a → b`, `b` always failing
with retries=1), `DAG.run` returns the context normally with *no* error
recorded in `results` and both tasks still `pending`: no task is ever
dispatched (roots fail the gating condition and non-roots never enter the
execution order), so no retry-exhaustion error can arise, and the `except`
handler would in any case `break` without re-raising.  The claim that the
error is recorded and propagated to the caller fails. -/
theorem c4_no_error_recorded_or_raised :
    failChainDag.map (fun d =>
      (d.run 0).map (fun r =>
        (r.1.results,
         (r.2.1.get_task "a").map Task.status,
         (r.2.1.get_task "b").map Task.status))) =
    Except.ok (Except.ok ([], some Status.pending, some Status.pending)) := by
  rfl

/-- C6: on the branch-halt scenario (`start` fans out to `good`, `bad`,
`review`, joining into `finish`, with `bad` always failing), `DAG.run`
executes nothing: every task ends the run still `pending` and `results` is
empty.  No task can fail during a run, so the halt-on-failure behaviour the
claim describes is dead code; downstream tasks remain `pending` only because
nothing is ever dispatched. -/
theorem c6_branch_run_executes_nothing :
    branchDag.map (fun d =>
      (d.run 0).map (fun r =>
        (r.1.results, r.2.1.tasks.map (fun p => (p.1, p.2.status))))) =
    Except.ok (Except.ok ([],
      [("start", Status.pending), ("good", Status.pending),
       ("bad", Status.pending), ("review", Status.pending),
       ("finish", Status.pending)])) := by
  rfl

/-- C7: skip propagation does not happen.  `T`'s only upstream `U` enters
and ends the run with status `failed`, yet after `DAG.run` `T` is still
`pending`, not `skipped`: `T` never appears in the execution order (which
contains only root tasks), so the branch that sets `skipped` never runs. -/
theorem c7_downstream_stays_pending_not_skipped :
    skipDag.map (fun d =>
      (d.run 0).map (fun r =>
        ((r.2.1.get_task "U").map Task.status,
         (r.2.1.get_task "T").map Task.status))) =
    Except.ok (Except.ok (some Status.failed, some Status.pending)) := by
  rfl

/-- C8: the execution-history record does not contain the run's total
duration.  On a DAG with one root task the appended record's `duration`
field holds the per-task display string left over from the summary loop
(the empty string, since the task never ran) — the summary loop reassigns
the `duration` variable that line 208 had set to the run's total duration
before line 235 stores it into the record. -/
theorem c8_history_duration_shadowed :
    (singleDag.run 0).map (fun r => r.2.1.execution_history) =
    Except.ok
      [{ dag_id := "single", execution_date := 0,
         duration := DurVal.text none,
         task_status := [("t", Status.pending)] }] := by
  rfl

/-- C9 counterexample: adding a second task with an already-present id does
not fail with a configuration error — `add_task` silently replaces the
existing task.  After adding `dupTaskFirst` (retries=3) and then
`dupTaskSecond` (retries=7) under the same id `"a"`, the task map holds a
single entry whose task is the second one. -/
theorem c9_duplicate_id_silently_replaced :
    (((mkDAG "dup").add_task dupTaskFirst).add_task dupTaskSecond).tasks.map
      (fun p => (p.1, p.2.retries)) = [("a", 7)] ∧
    dupTaskFirst.retries = 3 := by
  constructor <;> rfl

/-- After a Python dict assignment `m[k] = v`, looking the key up finds the
newly stored value, whether the key was already present (replaced in place)
or not (appended). -/
theorem find?_pyDictSet {α : Type} (m : List (String × α)) (k : String) (v : α) :
    (pyDictSet m k v).find? (fun p => p.1 = k) = some (k, v) := by
  induction m with
  | nil => simp [pyDictSet]
  | cons a m ih =>
    by_cases h : a.1 = k
    · simp [pyDictSet, h]
    · by_cases hm : m.any (fun p => decide (p.1 = k)) = true
      · simpa [pyDictSet, h, hm] using ih
      · simpa [pyDictSet, h, hm] using ih

/-- C9 (amended): `DAG.add_task` registers the task under its id
unconditionally; when a task with the same id is already present it is
silently replaced (no configuration error is raised), and afterwards the id
looks up the newly added task. -/
theorem c9_add_task_registers_unconditionally (d : DAG) (t : Task) :
    (d.add_task t).get_task t.task_id = some t := by
  unfold DAG.add_task DAG.get_task
  rw [show ({ d with tasks := pyDictSet d.tasks t.task_id t } : DAG).tasks =
        pyDictSet d.tasks t.task_id t from rfl]
  rw [find?_pyDictSet]
  rfl

/-- Retry loop, success case: if every attempt before `K` raises and attempt
`K` returns `v`, running the remaining attempts `attempt, …, attempt+n-1`
(with `K` among them) returns `v`, sets status `success`, stores the result
and stamps `end_time`. -/
theorem runGo_success (n : Nat) :
    ∀ (t : Task) (clock attempt K : Nat) (v : Val),
      attempt + n = t.retries → attempt ≤ K → K < t.retries →
      (∀ j, attempt ≤ j → j < K → ∃ e, t.function j = Except.error e) →
      t.function K = Except.ok v →
      ∃ t2, Task.runGo t clock (List.range' attempt n) =
          (Except.ok (some v), t2, clock + 1) ∧
        t2.status = Status.success ∧ t2.result = some v ∧
        t2.end_time = some clock := by
  induction n with
  | zero =>
    intro t clock attempt K v hn hK1 hK2 _ _
    omega
  | succ n ih =>
    intro t clock attempt K v hn hK1 hK2 hfail hok
    rw [List.range'_succ]
    by_cases hEq : attempt = K
    · subst hEq
      simp only [Task.runGo, hok]
      exact ⟨_, rfl, rfl, rfl, rfl⟩
    · have hlt : attempt < K := lt_of_le_of_ne hK1 hEq
      obtain ⟨e, he⟩ := hfail attempt le_rfl hlt
      simp only [Task.runGo, he]
      rw [if_pos (show attempt < t.retries - 1 by omega)]
      exact ih { t with error := some e } clock (attempt + 1) K v
        (by simp; omega) (by omega) (by simpa using hK2)
        (fun j hj1 hj2 => hfail j (by omega) hj2) hok

/-- Retry loop, exhaustion case: if every remaining attempt raises, the loop
re-raises the error of the final attempt, sets status `failed`, stores the
last error and stamps `end_time`. -/
theorem runGo_failure (n : Nat) :
    ∀ (t : Task) (clock attempt : Nat) (errs : Nat → String),
      attempt + n = t.retries → 1 ≤ n →
      (∀ j, attempt ≤ j → j < t.retries →
        t.function j = Except.error (errs j)) →
      ∃ t2, Task.runGo t clock (List.range' attempt n) =
          (Except.error (errs (t.retries - 1)), t2, clock + 1) ∧
        t2.status = Status.failed ∧ t2.end_time = some clock ∧
        t2.error = some (errs (t.retries - 1)) := by
  induction n with
  | zero =>
    intro t clock attempt errs _ h1 _
    omega
  | succ n ih =>
    intro t clock attempt errs hn _ hfail
    rw [List.range'_succ]
    have he := hfail attempt le_rfl (by omega)
    simp only [Task.runGo, he]
    by_cases hlast : attempt < t.retries - 1
    · rw [if_pos hlast]
      exact ih { t with error := some (errs attempt) } clock (attempt + 1)
        errs (by simp; omega) (by omega)
        (fun j hj1 hj2 => hfail j (by omega) (by simpa using hj2))
    · rw [if_neg hlast]
      have hA : attempt = t.retries - 1 := by omega
      subst hA
      exact ⟨_, rfl, rfl, rfl, rfl⟩

/-- Retry loop, outcome dichotomy: with at least one remaining attempt, the
loop either returns a value with status `success` or raises with status
`failed`; the fall-through `return None` is never taken. -/
theorem runGo_dichotomy (n : Nat) :
    ∀ (t : Task) (clock attempt : Nat),
      attempt + n = t.retries → 1 ≤ n →
      (∃ v t2, Task.runGo t clock (List.range' attempt n) =
          (Except.ok (some v), t2, clock + 1) ∧
        t2.status = Status.success) ∨
      (∃ e t2, Task.runGo t clock (List.range' attempt n) =
          (Except.error e, t2, clock + 1) ∧
        t2.status = Status.failed) := by
  induction n with
  | zero =>
    intro t clock attempt _ h1
    omega
  | succ n ih =>
    intro t clock attempt hn _
    rw [List.range'_succ]
    cases ht : t.function attempt with
    | ok v =>
      left
      simp only [Task.runGo, ht]
      exact ⟨v, _, rfl, rfl⟩
    | error e =>
      by_cases hlast : attempt < t.retries - 1
      · have := ih { t with error := some e } clock (attempt + 1)
          (by simp; omega) (by omega)
        simpa only [Task.runGo, ht, if_pos hlast] using this
      · right
        simp only [Task.runGo, ht]
        rw [if_neg hlast]
        exact ⟨e, _, rfl, rfl⟩

/-- C5: `Task.run` implements the retry state machine.  First conjunct: if
attempts before `K` raise and attempt `K` (with `K < retries`) returns `v`,
then `Task.run` returns `v`, status becomes `success`, `end_time` is set and
`v` is stored as the result (so no further attempt is consulted).  Second
conjunct: if all `retries` attempts raise, `Task.run` re-raises the error of
the last attempt, status becomes `failed`, `end_time` is set and the last
error is stored. -/
theorem c5_task_run_retry_machine (t : Task) (clock : Nat) :
    (∀ K v, K < t.retries →
      (∀ j, j < K → ∃ e, t.function j = Except.error e) →
      t.function K = Except.ok v →
      ∃ t2, Task.run t clock = (Except.ok (some v), t2, clock + 2) ∧
        t2.status = Status.success ∧ t2.result = some v ∧
        t2.end_time = some (clock + 1)) ∧
    (∀ errs : Nat → String, 1 ≤ t.retries →
      (∀ j, j < t.retries → t.function j = Except.error (errs j)) →
      ∃ t2, Task.run t clock =
          (Except.error (errs (t.retries - 1)), t2, clock + 2) ∧
        t2.status = Status.failed ∧ t2.end_time = some (clock + 1) ∧
        t2.error = some (errs (t.retries - 1))) := by
  constructor
  · intro K v hK hfail hok
    have h := runGo_success t.retries
      { t with status := Status.running, start_time := some clock }
      (clock + 1) 0 K v (by simp) (Nat.zero_le K)
      (by simpa using hK) (fun j _ hj => hfail j hj) hok
    unfold Task.run
    rw [List.range_eq_range']
    simpa using h
  · intro errs h1 hfail
    have h := runGo_failure t.retries
      { t with status := Status.running, start_time := some clock }
      (clock + 1) 0 errs (by simp) (by simpa using h1)
      (fun j _ hj => hfail j (by simpa using hj))
    unfold Task.run
    rw [List.range_eq_range']
    simpa using h

/-- Work function for the C5 witness: raises on attempts 0 and 1, returns
42 on every later attempt. -/
def w5fn : Nat → Except String Val :=
  fun k => match k with
  | 0 => Except.error "e0"
  | 1 => Except.error "e1"
  | _ => Except.ok 42

/-- The spec's retry-success example: retries=3, failing on the first two
attempts and succeeding on the third. -/
def w5task : Task := mkTask "w5" w5fn 3

/-- Witness for C5 at the spec's concrete example: with retries=3 and
failures on attempts 1 and 2, the run returns the attempt-3 value 42 with
status `success`. -/
theorem c5_task_run_retry_machine_witness :
    ∃ t2, Task.run w5task 0 = (Except.ok (some 42), t2, 2) ∧
      t2.status = Status.success ∧ t2.result = some 42 ∧
      t2.end_time = some 1 :=
  (c5_task_run_retry_machine w5task 0).1 2 42 (by decide)
    (fun j hj => by
      interval_cases j
      · exact ⟨"e0", rfl⟩
      · exact ⟨"e1", rfl⟩)
    rfl

/-- C10: `Task.run` is exhaustive over its two specified outcomes when
`retries ≥ 1` — it either returns a value with status `success` or raises
with status `failed`, never taking the trailing `return None`; and when
`retries = 0` it returns `None` leaving the task stuck at `running` with
`start_time` stamped and `end_time` untouched (unset for a fresh task). -/
theorem c10_task_run_exhaustive_outcomes (t : Task) (clock : Nat) :
    (1 ≤ t.retries →
      (∃ v t2, Task.run t clock = (Except.ok (some v), t2, clock + 2) ∧
        t2.status = Status.success) ∨
      (∃ e t2, Task.run t clock = (Except.error e, t2, clock + 2) ∧
        t2.status = Status.failed)) ∧
    (t.retries = 0 →
      Task.run t clock =
        (Except.ok none,
         { t with status := Status.running, start_time := some clock },
         clock + 1)) := by
  constructor
  · intro h1
    have h := runGo_dichotomy t.retries
      { t with status := Status.running, start_time := some clock }
      (clock + 1) 0 (by simp) (by simpa using h1)
    unfold Task.run
    rw [List.range_eq_range']
    simpa using h
  · intro h0
    unfold Task.run
    rw [show t.retries = 0 from h0]
    rfl

/-- Witness for C10 at a concrete task with retries=1 whose work always
fails: the dichotomy holds (here via the `failed` branch). -/
theorem c10_task_run_exhaustive_outcomes_witness :
    1 ≤ (mkTask "w10" alwaysFail 1).retries ∧
    ((∃ v t2, Task.run (mkTask "w10" alwaysFail 1) 0 =
        (Except.ok (some v), t2, 2) ∧ t2.status = Status.success) ∨
     (∃ e t2, Task.run (mkTask "w10" alwaysFail 1) 0 =
        (Except.error e, t2, 2) ∧ t2.status = Status.failed)) :=
  ⟨by decide,
   (c10_task_run_exhaustive_outcomes (mkTask "w10" alwaysFail 1) 0).1
     (by decide)⟩

end PipelineOrchestrator
